import Mathlib

/-!
Shallow embedding of `src/main.py` (class `GitHubAPIConsumer`), a thin
client for the GitHub REST API.  JSON values are modelled by the
inductive `Json`; Python dictionaries appearing as records are
association lists `Obj`.  The `requests` transport is modelled by an
oracle `Upstream` mapping each outgoing request to an outcome (an HTTP
response with a status code and parsed JSON body, or a network-level
failure).  Python exceptions are values of `PyErr` (the exception class
and its message); fallible code returns `Except PyErr`.  Each public
operation also returns the list of HTTP requests it issued, so that
"performs zero network calls" is expressible.
-/

/-- A JSON value. -/
inductive Json where
  | null : Json
  | bool : Bool → Json
  | num : Int → Json
  | str : String → Json
  | arr : List Json → Json
  | obj : List (String × Json) → Json

/-- A JSON object, i.e. a Python dict with string keys. -/
abbrev Obj := List (String × Json)

/-- First binding of key `k` in an object (Python dict lookup, `k in d`). -/
def lookupField (o : Obj) (k : String) : Option Json :=
  (o.find? (fun p => p.1 == k)).map (fun p => p.2)

/-- Python `d.get(k, default)`; `d.get(k)` is `objGet o k Json.null`. -/
def objGet (o : Obj) (k : String) (d : Json) : Json :=
  (lookupField o k).getD d

/-- Python truthiness of a JSON value (`if v:`). -/
def jsonTruthy : Json → Bool
  | Json.null => false
  | Json.bool b => b
  | Json.num n => decide (n ≠ 0)
  | Json.str s => decide (s ≠ "")
  | Json.arr l => !l.isEmpty
  | Json.obj o => !o.isEmpty

/-- A Python exception: its class and message.  The source raises
`ValueError` explicitly; `AttributeError` and `TypeError` arise from
attribute access on non-dicts and from iterating / `strptime`-ing
non-conforming values. -/
inductive PyErr where
  | valueError : String → PyErr
  | attributeError : String → PyErr
  | typeError : String → PyErr

/-- Python `v.get(k)` where `v` should be a dict: `AttributeError` on any
non-dict value (including `None`). -/
def pyDictGet (v : Json) (k : String) (d : Json) : Except PyErr Json :=
  match v with
  | Json.obj o => Except.ok (objGet o k d)
  | _ => Except.error (PyErr.attributeError "get")

/-- Components of a `datetime.datetime` as produced by `strptime`. -/
structure PyDateTime where
  year : Nat
  month : Nat
  day : Nat
  hour : Nat
  minute : Nat
  second : Nat

def digitVal (c : Char) : Nat := c.toNat - 48

def isDigitCh (c : Char) : Bool := 48 ≤ c.toNat && c.toNat ≤ 57

/-- Gregorian leap year, as used by Python `datetime`. -/
def is_leap (y : Nat) : Bool := (y % 4 == 0 && y % 100 != 0) || y % 400 == 0

def days_in_month (y m : Nat) : Nat :=
  if m == 2 then (if is_leap y then 29 else 28)
  else if m == 4 || m == 6 || m == 9 || m == 11 then 30
  else 31

/-- One numeric field of the CPython `_strptime` regex: one or two
digits, where a two-digit run must lie in [lo2, hi2] (the union of the
two-digit regex alternatives) and a one-digit run in [lo1, hi1] (the
one-digit alternative).  Because in this format every character after
a field is a non-digit literal, regex backtracking can never split a
two-digit run: if its value fails the two-digit alternatives, the
one-digit retreat leaves a digit facing a literal and the match
fails.  Runs of three or more digits fail the trailing literal the
same way. -/
def parse_field12 (lo2 hi2 lo1 hi1 : Nat) : List Char → Option (Nat × List Char)
  | c1 :: c2 :: rest =>
    if isDigitCh c1 && isDigitCh c2 then
      let v := 10 * digitVal c1 + digitVal c2
      if lo2 ≤ v && v ≤ hi2 then some (v, rest) else none
    else if isDigitCh c1 then
      let v := digitVal c1
      if lo1 ≤ v && v ≤ hi1 then some (v, c2 :: rest) else none
    else none
  | [c1] =>
    if isDigitCh c1 then
      let v := digitVal c1
      if lo1 ≤ v && v ≤ hi1 then some (v, []) else none
    else none
  | [] => none

/-- `datetime.strptime(s, "%Y-%m-%dT%H:%M:%SZ")`, returning `none` where
Python raises.  CPython `_strptime` compiles the format to a regex
with IGNORECASE, so the literals `T` and `Z` also match `t` and `z`;
`%Y` is exactly four digits; the other fields are one or two digits
per the `TimeRE` alternations — month `1[0-2]|0[1-9]|[1-9]` (two-digit
1..12, one-digit 1..9), day `3[01]|[12]\d|0[1-9]|[1-9]` (1..31 / 1..9),
hour `2[0-3]|[0-1]\d|\d` (0..23 / 0..9), minute `[0-5]\d|\d`
(0..59 / 0..9), second `6[0-1]|[0-5]\d|\d` (0..61 / 0..9); the whole
string must be consumed (else `unconverted data remains`).  The
`datetime` constructor then rejects year 0, a day beyond the month
length, and the leap seconds 60/61 that the regex admits. -/
def parse_timestamp (s : String) : Option PyDateTime := do
  match s.data with
  | y1 :: y2 :: y3 :: y4 :: '-' :: rest1 =>
    if isDigitCh y1 && isDigitCh y2 && isDigitCh y3 && isDigitCh y4 then
      let year := 1000 * digitVal y1 + 100 * digitVal y2 + 10 * digitVal y3 + digitVal y4
      let (month, rest2) ← parse_field12 1 12 1 9 rest1
      match rest2 with
      | '-' :: rest3 => do
        let (day, rest4) ← parse_field12 1 31 1 9 rest3
        match rest4 with
        | t :: rest5 =>
          if t == 'T' || t == 't' then do
            let (hour, rest6) ← parse_field12 0 23 0 9 rest5
            match rest6 with
            | ':' :: rest7 => do
              let (minute, rest8) ← parse_field12 0 59 0 9 rest7
              match rest8 with
              | ':' :: rest9 => do
                let (second, rest10) ← parse_field12 0 61 0 9 rest9
                match rest10 with
                | [z] =>
                  if (z == 'Z' || z == 'z') && 1 ≤ year &&
                     day ≤ days_in_month year month && second ≤ 59 then
                    some (PyDateTime.mk year month day hour minute second)
                  else none
                | _ => none
              | _ => none
            | _ => none
          else none
        | _ => none
      | _ => none
    else none
  | _ => none

def pad2 (n : Nat) : String := if n < 10 then "0" ++ Nat.repr n else Nat.repr n

def pad4 (n : Nat) : String :=
  if n < 10 then "000" ++ Nat.repr n
  else if n < 100 then "00" ++ Nat.repr n
  else if n < 1000 then "0" ++ Nat.repr n
  else Nat.repr n

/-- `dt.strftime("%d/%m/%Y %H:%M:%S")`.  (`%Y` padding below year 1000 is
platform-dependent in CPython; the model zero-pads to four digits.) -/
def format_timestamp (dt : PyDateTime) : String :=
  pad2 dt.day ++ "/" ++ pad2 dt.month ++ "/" ++ pad4 dt.year ++ " " ++
  pad2 dt.hour ++ ":" ++ pad2 dt.minute ++ ":" ++ pad2 dt.second

/-- The repeated source block
`x = rec.get(key)` / `if x:` / `x = strptime(x, ...)` / `x = x.strftime(...)`:
falsy values pass through unchanged; truthy non-strings raise
`TypeError` in `strptime`; unparsable strings raise `ValueError`
(CPython produces several distinct `strptime` messages, collapsed here
into one). -/
def format_if_present (v : Json) : Except PyErr Json :=
  if jsonTruthy v then
    match v with
    | Json.str s =>
      match parse_timestamp s with
      | some dt => Except.ok (Json.str (format_timestamp dt))
      | none => Except.error (PyErr.valueError
          ("time data " ++ s ++ " does not match format %Y-%m-%dT%H:%M:%SZ"))
    | _ => Except.error (PyErr.typeError "strptime argument 1 must be str")
  else
    Except.ok v

/-- Shaped record produced by `_treat_users_data` for each user. -/
structure UserSummary where
  id : Json
  login : Json
  avatar_url : Json
  url : Json
  type : Json
  site_admin : Json

/-- The per-element body of `_treat_users_data` (pure, total). -/
def treat_user_record (u : Obj) : UserSummary :=
  { id := objGet u "id" Json.null
    login := objGet u "login" Json.null
    avatar_url := objGet u "avatar_url" Json.null
    url := objGet u "html_url" Json.null
    type := objGet u "type" Json.null
    site_admin := objGet u "site_admin" (Json.bool false) }

/-- The loop of `_treat_users_data` over the raw element list: `.get` on a
non-dict element raises `AttributeError`. -/
def treat_user_list : List Json → Except PyErr (List UserSummary)
  | [] => Except.ok []
  | u :: rest =>
    match u with
    | Json.obj o => (treat_user_list rest).map (fun t => treat_user_record o :: t)
    | _ => Except.error (PyErr.attributeError "get")

/-- `_treat_users_data`: Python iterates the argument — an array is
mapped element-wise; a dict yields its keys, so an empty dict gives an
empty result and a non-empty dict fails attribute lookup on its first
string key; a string yields its characters, likewise failing unless
empty; null, numbers and booleans are not iterable. -/
def treat_users_data (users : Json) : Except PyErr (List UserSummary) :=
  match users with
  | Json.arr l => treat_user_list l
  | Json.obj [] => Except.ok []
  | Json.obj (_ :: _) => Except.error (PyErr.attributeError "get")
  | Json.str s =>
    if s == "" then Except.ok [] else Except.error (PyErr.attributeError "get")
  | _ => Except.error (PyErr.typeError "object is not iterable")

/-- Shaped record produced by `_treat_user_detail`. -/
structure UserDetail where
  id : Json
  login : Json
  name : Json
  company : Json
  blog : Json
  location : Json
  email : Json
  bio : Json
  public_repos : Json
  public_gists : Json
  followers : Json
  following : Json
  created_at : Json
  updated_at : Json
  avatar_url : Json
  url : Json

/-- `_treat_user_detail`. -/
def treat_user_detail (u : Obj) : Except PyErr UserDetail := do
  let created_at ← format_if_present (objGet u "created_at" Json.null)
  let updated_at ← format_if_present (objGet u "updated_at" Json.null)
  Except.ok
    { id := objGet u "id" Json.null
      login := objGet u "login" Json.null
      name := objGet u "name" Json.null
      company := objGet u "company" Json.null
      blog := objGet u "blog" Json.null
      location := objGet u "location" Json.null
      email := objGet u "email" Json.null
      bio := objGet u "bio" Json.null
      public_repos := objGet u "public_repos" (Json.num 0)
      public_gists := objGet u "public_gists" (Json.num 0)
      followers := objGet u "followers" (Json.num 0)
      following := objGet u "following" (Json.num 0)
      created_at := created_at
      updated_at := updated_at
      avatar_url := objGet u "avatar_url" Json.null
      url := objGet u "html_url" Json.null }

/-- Shaped record produced by `_treat_repositories_data` for each repo. -/
structure RepoSummary where
  id : Json
  name : Json
  full_name : Json
  owner : Json
  description : Json
  language : Json
  stars : Json
  forks : Json
  watchers : Json
  open_issues : Json
  created_at : Json
  updated_at : Json
  url : Json
  is_fork : Json
  is_archived : Json

/-- The per-element body of `_treat_repositories_data`:
`repo.get("owner", \x7b\x7d).get("login")` raises `AttributeError` when the
stored owner value is not a dict (e.g. JSON null). -/
def treat_repo_record (r : Obj) : Except PyErr RepoSummary := do
  let created_at ← format_if_present (objGet r "created_at" Json.null)
  let updated_at ← format_if_present (objGet r "updated_at" Json.null)
  let owner ← pyDictGet (objGet r "owner" (Json.obj [])) "login" Json.null
  Except.ok
    { id := objGet r "id" Json.null
      name := objGet r "name" Json.null
      full_name := objGet r "full_name" Json.null
      owner := owner
      description := objGet r "description" Json.null
      language := objGet r "language" Json.null
      stars := objGet r "stargazers_count" (Json.num 0)
      forks := objGet r "forks_count" (Json.num 0)
      watchers := objGet r "watchers_count" (Json.num 0)
      open_issues := objGet r "open_issues_count" (Json.num 0)
      created_at := created_at
      updated_at := updated_at
      url := objGet r "html_url" Json.null
      is_fork := objGet r "fork" (Json.bool false)
      is_archived := objGet r "archived" (Json.bool false) }

/-- The loop of `_treat_repositories_data`. -/
def treat_repo_list : List Json → Except PyErr (List RepoSummary)
  | [] => Except.ok []
  | r :: rest =>
    match r with
    | Json.obj o => do
        let t ← treat_repo_record o
        let ts ← treat_repo_list rest
        Except.ok (t :: ts)
    | _ => Except.error (PyErr.attributeError "get")

/-- `_treat_repositories_data`: same iteration behaviour over the raw
argument as `treat_users_data`. -/
def treat_repositories_data (repos : Json) : Except PyErr (List RepoSummary) :=
  match repos with
  | Json.arr l => treat_repo_list l
  | Json.obj [] => Except.ok []
  | Json.obj (_ :: _) => Except.error (PyErr.attributeError "get")
  | Json.str s =>
    if s == "" then Except.ok [] else Except.error (PyErr.attributeError "get")
  | _ => Except.error (PyErr.typeError "object is not iterable")

/-- Query parameters of an outgoing request. -/
abbrev Params := List (String × Json)

/-- One outgoing HTTP GET. -/
structure Request where
  endpoint : String
  params : Params

/-- Outcome of one transport-level attempt: an HTTP response (status and
parsed JSON body) or a network-level failure with no status. -/
inductive HttpOutcome where
  | response : Nat → Json → HttpOutcome
  | transportFailure : String → HttpOutcome

/-- The upstream server / network, as an oracle from request to outcome. -/
abbrev Upstream := Request → HttpOutcome

def BASE_URL : String := "https://api.github.com"

/-- Model of the `requests`-generated `HTTPError` text interpolated into
the fallback message (third-party detail; only the status and url
matter to the spec). -/
def raise_detail (status : Nat) (endpoint : String) : String :=
  Nat.repr status ++ " Error for url: " ++ (BASE_URL ++ endpoint)

/-- `_make_request`, given the transport outcome for its single GET.
`response.raise_for_status()` raises `HTTPError` exactly for statuses in
[400, 600); the handler then classifies by status code.  A
`RequestException` (no HTTP status obtained) is reported as a request
error. -/
def make_request (outcome : HttpOutcome) (endpoint : String) : Except PyErr Json :=
  match outcome with
  | HttpOutcome.transportFailure m =>
      Except.error (PyErr.valueError ("Erro na requisição: " ++ m))
  | HttpOutcome.response status body =>
      if 400 ≤ status ∧ status < 600 then
        if status = 404 then
          Except.error (PyErr.valueError ("Recurso não encontrado: " ++ endpoint))
        else if status = 403 then
          Except.error (PyErr.valueError "Rate limit excedido. Use um token de autenticação.")
        else if status = 401 then
          Except.error (PyErr.valueError "Token de autenticação inválido")
        else
          Except.error (PyErr.valueError
            ("Erro HTTP " ++ (Nat.repr status ++ (": " ++ raise_detail status endpoint))))
      else
        Except.ok body

/-- `get_users`: result paired with the list of requests issued. -/
def get_users (up : Upstream) (since : Int) (per_page : Int) :
    Except PyErr (List UserSummary) × List Request :=
  let params : Params := [("since", Json.num since), ("per_page", Json.num (min per_page 100))]
  let req : Request := { endpoint := "/users", params := params }
  ((do
      let users ← make_request (up req) "/users"
      treat_users_data users),
   [req])

def valid_user_sorts : List String := ["followers", "repositories", "joined", "best-match"]

def valid_repo_sorts : List String := ["stars", "forks", "help-wanted-issues", "updated", "best-match"]

/-- The query-parameter dict built by both search operations. -/
def search_params (query sort order : String) (per_page : Int) : Params :=
  [("q", Json.str query), ("sort", Json.str sort), ("order", Json.str order),
   ("per_page", Json.num (min per_page 100))]

/-- Result dict of `search_users`. -/
structure SearchUsersResult where
  total_count : Json
  incomplete_results : Json
  users : List UserSummary

/-- `search_users`. -/
def search_users (up : Upstream) (query sort order : String) (per_page : Int) :
    Except PyErr SearchUsersResult × List Request :=
  if sort ∈ valid_user_sorts then
    let req : Request := { endpoint := "/search/users", params := search_params query sort order per_page }
    ((do
        let result ← make_request (up req) "/search/users"
        let total_count ← pyDictGet result "total_count" (Json.num 0)
        let incomplete_results ← pyDictGet result "incomplete_results" (Json.bool false)
        let items ← pyDictGet result "items" (Json.arr [])
        let users ← treat_users_data items
        Except.ok (SearchUsersResult.mk total_count incomplete_results users)),
     [req])
  else
    (Except.error (PyErr.valueError "Sort inválido. Use: followers, repositories, joined, best-match"), [])

/-- `get_user_details`. -/
def get_user_details (up : Upstream) (username : String) :
    Except PyErr UserDetail × List Request :=
  let req : Request := { endpoint := "/users/" ++ username, params := [] }
  ((do
      let user ← make_request (up req) ("/users/" ++ username)
      match user with
      | Json.obj o => treat_user_detail o
      | _ => Except.error (PyErr.attributeError "get")),
   [req])

/-- Result dict of `search_repositories`. -/
structure SearchReposResult where
  total_count : Json
  incomplete_results : Json
  repositories : List RepoSummary

/-- `search_repositories`. -/
def search_repositories (up : Upstream) (query sort order : String) (per_page : Int) :
    Except PyErr SearchReposResult × List Request :=
  if sort ∈ valid_repo_sorts then
    let req : Request := { endpoint := "/search/repositories", params := search_params query sort order per_page }
    ((do
        let result ← make_request (up req) "/search/repositories"
        let total_count ← pyDictGet result "total_count" (Json.num 0)
        let incomplete_results ← pyDictGet result "incomplete_results" (Json.bool false)
        let items ← pyDictGet result "items" (Json.arr [])
        let repositories ← treat_repositories_data items
        Except.ok (SearchReposResult.mk total_count incomplete_results repositories)),
     [req])
  else
    (Except.error (PyErr.valueError "Sort inválido. Use: stars, forks, help-wanted-issues, updated, best-match"), [])

/-- The `per_page` query value sent by an operation that issued exactly
one request. -/
def sent_per_page (reqs : List Request) : Option Json :=
  match reqs with
  | [r] => lookupField r.params "per_page"
  | _ => none

/-! ## Helper lemmas -/

theorem exceptBind_ok {α β : Type} (x : α) (f : α → Except PyErr β) :
    (Except.ok x >>= f) = f x := rfl

theorem exceptBind_error {α β : Type} (e : PyErr) (f : α → Except PyErr β) :
    ((Except.error e : Except PyErr α) >>= f) = Except.error e := rfl

theorem treat_user_list_map (objs : List Obj) :
    treat_user_list (objs.map Json.obj) = Except.ok (objs.map treat_user_record) := by
  induction objs with
  | nil => rfl
  | cons o rest ih => simp [treat_user_list, ih, Except.map]

theorem treat_repo_list_eq_mapM (objs : List Obj) :
    treat_repo_list (objs.map Json.obj) = objs.mapM treat_repo_record := by
  induction objs with
  | nil => rfl
  | cons o rest ih =>
      simp only [List.map_cons, treat_repo_list, List.mapM_cons, ih]
      cases treat_repo_record o with
      | error e => rfl
      | ok t =>
          simp only [exceptBind_ok]
          cases rest.mapM treat_repo_record with
          | error e => rfl
          | ok ts => rfl

/-! ## Claims -/

/-- Claim C1: a `sort` argument outside the fixed enumerated set of
`search_users` (resp. `search_repositories`) makes the operation fail
with the validation `ValueError` while issuing zero HTTP requests: the
request-building and transport step is never reached. -/
theorem sort_validation_blocks_request (up : Upstream) (q order : String) (pp : Int)
    (sort : String) :
    (sort ∉ valid_user_sorts →
      search_users up q sort order pp =
        (Except.error (PyErr.valueError
          "Sort inválido. Use: followers, repositories, joined, best-match"), [])) ∧
    (sort ∉ valid_repo_sorts →
      search_repositories up q sort order pp =
        (Except.error (PyErr.valueError
          "Sort inválido. Use: stars, forks, help-wanted-issues, updated, best-match"), [])) := by
  constructor
  · intro h
    unfold search_users
    rw [if_neg h]
  · intro h
    unfold search_repositories
    rw [if_neg h]

theorem sort_validation_blocks_request_witness :
    search_users (fun _ => HttpOutcome.transportFailure "") "q" "bogus" "desc" 5 =
      (Except.error (PyErr.valueError
        "Sort inválido. Use: followers, repositories, joined, best-match"), []) :=
  (sort_validation_blocks_request (fun _ => HttpOutcome.transportFailure "") "q" "desc" 5
    "bogus").1 (by decide)

/-- Claim C3: every operation that sends a page size places
`min(per_page, 100)` in the outgoing query parameters: values above 100
are clamped to exactly 100, values ≤ 100 (including 0 and negatives)
are sent unchanged — there is no lower bound. -/
theorem per_page_clamped (up : Upstream) (since pp : Int) (q order sort : String) :
    (sent_per_page (get_users up since pp).2 = some (Json.num (min pp 100))) ∧
    (sort ∈ valid_user_sorts →
      sent_per_page (search_users up q sort order pp).2 = some (Json.num (min pp 100))) ∧
    (sort ∈ valid_repo_sorts →
      sent_per_page (search_repositories up q sort order pp).2 = some (Json.num (min pp 100))) ∧
    (100 < pp → min pp 100 = 100) ∧
    (pp ≤ 100 → min pp 100 = pp) := by
  refine ⟨rfl, fun h => ?_, fun h => ?_, fun h => min_eq_right h.le, fun h => min_eq_left h⟩
  · unfold search_users
    rw [if_pos h]
    rfl
  · unfold search_repositories
    rw [if_pos h]
    rfl

theorem per_page_clamped_witness :
    sent_per_page (search_users (fun _ => HttpOutcome.transportFailure "") "q" "followers"
        "desc" 250).2 = some (Json.num (min 250 100)) ∧
    min (250 : Int) 100 = 100 ∧
    min (-3 : Int) 100 = -3 :=
  ⟨(per_page_clamped (fun _ => HttpOutcome.transportFailure "") 0 250 "q" "desc"
      "followers").2.1 (by decide),
   (per_page_clamped (fun _ => HttpOutcome.transportFailure "") 0 250 "q" "desc"
      "followers").2.2.2.1 (by decide),
   (per_page_clamped (fun _ => HttpOutcome.transportFailure "") 0 (-3) "q" "desc"
      "followers").2.2.2.2 (by decide)⟩

/-- Claim C7: the user-summary mapper is total over every raw user
record (it returns a plain `UserSummary`, so it cannot throw, and on
record lists the shaping succeeds with the records mapped
element-wise); a record missing `site_admin` is shaped with
`site_admin = false` (not absent, not null), and each of the other five
projected fields defaults to null when absent. -/
theorem user_summary_total_defaults (u : Obj) :
    (lookupField u "site_admin" = none → (treat_user_record u).site_admin = Json.bool false) ∧
    (lookupField u "id" = none → (treat_user_record u).id = Json.null) ∧
    (lookupField u "login" = none → (treat_user_record u).login = Json.null) ∧
    (lookupField u "avatar_url" = none → (treat_user_record u).avatar_url = Json.null) ∧
    (lookupField u "html_url" = none → (treat_user_record u).url = Json.null) ∧
    (lookupField u "type" = none → (treat_user_record u).type = Json.null) ∧
    (∀ objs : List Obj,
      treat_users_data (Json.arr (objs.map Json.obj)) =
        Except.ok (objs.map treat_user_record)) := by
  refine ⟨fun h => ?_, fun h => ?_, fun h => ?_, fun h => ?_, fun h => ?_, fun h => ?_,
    fun objs => ?_⟩
  · simp [treat_user_record, objGet, h]
  · simp [treat_user_record, objGet, h]
  · simp [treat_user_record, objGet, h]
  · simp [treat_user_record, objGet, h]
  · simp [treat_user_record, objGet, h]
  · simp [treat_user_record, objGet, h]
  · simpa [treat_users_data] using treat_user_list_map objs

theorem user_summary_total_defaults_witness :
    (treat_user_record []).site_admin = Json.bool false ∧
    (treat_user_record []).id = Json.null ∧
    (treat_user_record [("login", Json.str "octocat")]).site_admin = Json.bool false :=
  ⟨(user_summary_total_defaults []).1 rfl,
   (user_summary_total_defaults []).2.1 rfl,
   (user_summary_total_defaults [("login", Json.str "octocat")]).1 rfl⟩

/-- Claim C9: every read operation is deterministic in its arguments
and the upstream oracle: two runs with identical arguments against the
same upstream give structurally identical results (the embedded
operations are pure functions). -/
theorem read_ops_deterministic (up : Upstream) (since pp : Int)
    (q sort order username : String) :
    get_users up since pp = get_users up since pp ∧
    search_users up q sort order pp = search_users up q sort order pp ∧
    get_user_details up username = get_user_details up username ∧
    search_repositories up q sort order pp = search_repositories up q sort order pp :=
  ⟨rfl, rfl, rfl, rfl⟩

/-! ## Structural lemmas about the repository and detail mappers -/

theorem format_if_present_no_attr (v : Json) (m : String) :
    format_if_present v ≠ Except.error (PyErr.attributeError m) := by
  intro h
  unfold format_if_present at h
  split at h
  · split at h
    · split at h <;> simp_all
    · simp_all
  · simp_all

theorem treat_repo_record_ok_owner (r : Obj) (d : RepoSummary)
    (h : treat_repo_record r = Except.ok d) :
    Except.ok d.owner = pyDictGet (objGet r "owner" (Json.obj [])) "login" Json.null := by
  unfold treat_repo_record at h
  cases hca : format_if_present (objGet r "created_at" Json.null) with
  | error e => rw [hca, exceptBind_error] at h; cases h
  | ok ca =>
      rw [hca, exceptBind_ok] at h
      cases hua : format_if_present (objGet r "updated_at" Json.null) with
      | error e => rw [hua, exceptBind_error] at h; cases h
      | ok ua =>
          rw [hua, exceptBind_ok] at h
          cases how : pyDictGet (objGet r "owner" (Json.obj [])) "login" Json.null with
          | error e => rw [how, exceptBind_error] at h; cases h
          | ok ow =>
              rw [how, exceptBind_ok] at h
              injection h with h
              rw [← h]

theorem treat_user_detail_ok_created (u : Obj) (d : UserDetail)
    (h : treat_user_detail u = Except.ok d) :
    Except.ok d.created_at = format_if_present (objGet u "created_at" Json.null) := by
  unfold treat_user_detail at h
  cases hca : format_if_present (objGet u "created_at" Json.null) with
  | error e => rw [hca, exceptBind_error] at h; cases h
  | ok ca =>
      rw [hca, exceptBind_ok] at h
      cases hua : format_if_present (objGet u "updated_at" Json.null) with
      | error e => rw [hua, exceptBind_error] at h; cases h
      | ok ua =>
          rw [hua, exceptBind_ok] at h
          injection h with h
          rw [← h]

theorem treat_user_detail_ok_updated (u : Obj) (d : UserDetail)
    (h : treat_user_detail u = Except.ok d) :
    Except.ok d.updated_at = format_if_present (objGet u "updated_at" Json.null) := by
  unfold treat_user_detail at h
  cases hca : format_if_present (objGet u "created_at" Json.null) with
  | error e => rw [hca, exceptBind_error] at h; cases h
  | ok ca =>
      rw [hca, exceptBind_ok] at h
      cases hua : format_if_present (objGet u "updated_at" Json.null) with
      | error e => rw [hua, exceptBind_error] at h; cases h
      | ok ua =>
          rw [hua, exceptBind_ok] at h
          injection h with h
          rw [← h]

theorem treat_repo_record_ok_created (r : Obj) (d : RepoSummary)
    (h : treat_repo_record r = Except.ok d) :
    Except.ok d.created_at = format_if_present (objGet r "created_at" Json.null) := by
  unfold treat_repo_record at h
  cases hca : format_if_present (objGet r "created_at" Json.null) with
  | error e => rw [hca, exceptBind_error] at h; cases h
  | ok ca =>
      rw [hca, exceptBind_ok] at h
      cases hua : format_if_present (objGet r "updated_at" Json.null) with
      | error e => rw [hua, exceptBind_error] at h; cases h
      | ok ua =>
          rw [hua, exceptBind_ok] at h
          cases how : pyDictGet (objGet r "owner" (Json.obj [])) "login" Json.null with
          | error e => rw [how, exceptBind_error] at h; cases h
          | ok ow =>
              rw [how, exceptBind_ok] at h
              injection h with h
              rw [← h]

/-- Claim C8: a repository record with no `owner` key shapes to
`owner = null` — the mapper defaults through an empty dict and raises
no `AttributeError` — and when the owner value is a dict, the shaped
owner is its `login` field (null when that is absent). -/
theorem repo_owner_absent_null (r : Obj) :
    (∀ d, lookupField r "owner" = none → treat_repo_record r = Except.ok d →
      d.owner = Json.null) ∧
    (lookupField r "owner" = none →
      ∀ m, treat_repo_record r ≠ Except.error (PyErr.attributeError m)) ∧
    (∀ o d, lookupField r "owner" = some (Json.obj o) → treat_repo_record r = Except.ok d →
      d.owner = (lookupField o "login").getD Json.null) := by
  refine ⟨fun d hno h => ?_, fun hno m h => ?_, fun o d hobj h => ?_⟩
  · have := treat_repo_record_ok_owner r d h
    rw [objGet, hno] at this
    injection this with this
  · unfold treat_repo_record at h
    cases hca : format_if_present (objGet r "created_at" Json.null) with
    | error e =>
        rw [hca, exceptBind_error] at h
        injection h with h
        exact format_if_present_no_attr _ m (hca.trans (congrArg Except.error h))
    | ok ca =>
        rw [hca, exceptBind_ok] at h
        cases hua : format_if_present (objGet r "updated_at" Json.null) with
        | error e =>
            rw [hua, exceptBind_error] at h
            injection h with h
            exact format_if_present_no_attr _ m (hua.trans (congrArg Except.error h))
        | ok ua =>
            rw [hua, exceptBind_ok] at h
            rw [objGet, hno] at h
            cases h
  · have := treat_repo_record_ok_owner r d h
    rw [objGet, hobj] at this
    injection this with this

theorem repo_owner_absent_null_witness :
    (RepoSummary.mk Json.null Json.null Json.null Json.null Json.null Json.null
      (Json.num 0) (Json.num 0) (Json.num 0) (Json.num 0) Json.null Json.null
      Json.null (Json.bool false) (Json.bool false)).owner = Json.null ∧
    treat_repo_record [] ≠ Except.error (PyErr.attributeError "get") :=
  ⟨(repo_owner_absent_null []).1
      (RepoSummary.mk Json.null Json.null Json.null Json.null Json.null Json.null
        (Json.num 0) (Json.num 0) (Json.num 0) (Json.num 0) Json.null Json.null
        Json.null (Json.bool false) (Json.bool false)) rfl rfl,
   (repo_owner_absent_null []).2.1 rfl "get"⟩

/-- Claim C10: a repository record whose `owner` key is present and
bound to JSON null makes the mapper raise (an `AttributeError` from
`None.get`, once the timestamp steps succeed), rather than defaulting
the shaped owner to null; that error is not a `ValueError`, the class
carrying every classified error kind of the client. -/
theorem repo_owner_null_raises (r : Obj) :
    (lookupField r "owner" = some Json.null →
      ∃ e, treat_repo_record r = Except.error e) ∧
    (∀ ca ua, lookupField r "owner" = some Json.null →
      format_if_present (objGet r "created_at" Json.null) = Except.ok ca →
      format_if_present (objGet r "updated_at" Json.null) = Except.ok ua →
      treat_repo_record r = Except.error (PyErr.attributeError "get")) ∧
    (∀ m₁ m₂, PyErr.attributeError m₁ ≠ PyErr.valueError m₂) := by
  refine ⟨fun hnull => ?_, fun ca ua hnull hca hua => ?_, fun m₁ m₂ h => PyErr.noConfusion h⟩
  · have hv : objGet r "owner" (Json.obj []) = Json.null := by
      rw [objGet, hnull]
      rfl
    unfold treat_repo_record
    cases hca : format_if_present (objGet r "created_at" Json.null) with
    | error e => exact ⟨e, rfl⟩
    | ok ca =>
        cases hua : format_if_present (objGet r "updated_at" Json.null) with
        | error e => exact ⟨e, rfl⟩
        | ok ua =>
            refine ⟨PyErr.attributeError "get", ?_⟩
            rw [hv]
            rfl
  · have hv : objGet r "owner" (Json.obj []) = Json.null := by
      rw [objGet, hnull]
      rfl
    unfold treat_repo_record
    rw [hca, hua, hv]
    rfl

theorem repo_owner_null_raises_witness :
    treat_repo_record [("owner", Json.null)] =
      Except.error (PyErr.attributeError "get") :=
  (repo_owner_null_raises [("owner", Json.null)]).2.1 Json.null Json.null rfl rfl rfl

/-! ## Timestamp lemmas -/

theorem format_if_present_parse (ts : String) (dt : PyDateTime)
    (h : parse_timestamp ts = some dt) :
    format_if_present (Json.str ts) = Except.ok (Json.str (format_timestamp dt)) := by
  have hne : ts ≠ "" := by
    intro he
    rw [he] at h
    exact Option.noConfusion ((show parse_timestamp "" = none from rfl) ▸ h)
  have ht : jsonTruthy (Json.str ts) = true := by
    simp [jsonTruthy, hne]
  unfold format_if_present
  rw [if_pos ht]
  simp [h]

/-- Claim C4: a timestamp string in the fixed ISO-8601-with-Z format is
reformatted by the mappers to the fixed DD/MM/YYYY HH:MM:SS display
format; `"2011-01-25T18:44:36Z"` maps to exactly `"25/01/2011 18:44:36"`;
an absent timestamp field stays absent (null) in the shaped output. -/
theorem timestamp_reformatting :
    (∀ ts dt, parse_timestamp ts = some dt →
      format_if_present (Json.str ts) = Except.ok (Json.str (format_timestamp dt))) ∧
    (∀ u ts dt d, lookupField u "created_at" = some (Json.str ts) →
      parse_timestamp ts = some dt → treat_user_detail u = Except.ok d →
      d.created_at = Json.str (format_timestamp dt)) ∧
    (∀ u ts dt d, lookupField u "updated_at" = some (Json.str ts) →
      parse_timestamp ts = some dt → treat_user_detail u = Except.ok d →
      d.updated_at = Json.str (format_timestamp dt)) ∧
    (∀ r ts dt d, lookupField r "created_at" = some (Json.str ts) →
      parse_timestamp ts = some dt → treat_repo_record r = Except.ok d →
      d.created_at = Json.str (format_timestamp dt)) ∧
    (∀ u d, lookupField u "created_at" = none → treat_user_detail u = Except.ok d →
      d.created_at = Json.null) ∧
    (∃ d, treat_user_detail [("created_at", Json.str "2011-01-25T18:44:36Z")] = Except.ok d ∧
      d.created_at = Json.str "25/01/2011 18:44:36") := by
  refine ⟨format_if_present_parse,
    fun u ts dt d hl hp h => ?_, fun u ts dt d hl hp h => ?_,
    fun r ts dt d hl hp h => ?_, fun u d hl h => ?_, ?_⟩
  · have hv : objGet u "created_at" Json.null = Json.str ts := by
      rw [objGet, hl]
      rfl
    have := treat_user_detail_ok_created u d h
    rw [hv, format_if_present_parse ts dt hp] at this
    injection this with this
  · have hv : objGet u "updated_at" Json.null = Json.str ts := by
      rw [objGet, hl]
      rfl
    have := treat_user_detail_ok_updated u d h
    rw [hv, format_if_present_parse ts dt hp] at this
    injection this with this
  · have hv : objGet r "created_at" Json.null = Json.str ts := by
      rw [objGet, hl]
      rfl
    have := treat_repo_record_ok_created r d h
    rw [hv, format_if_present_parse ts dt hp] at this
    injection this with this
  · have hv : objGet u "created_at" Json.null = Json.null := by
      rw [objGet, hl]
      rfl
    have := treat_user_detail_ok_created u d h
    rw [hv] at this
    injection this with this
  · exact ⟨UserDetail.mk Json.null Json.null Json.null Json.null Json.null Json.null
      Json.null Json.null (Json.num 0) (Json.num 0) (Json.num 0) (Json.num 0)
      (Json.str "25/01/2011 18:44:36") Json.null Json.null Json.null, rfl, rfl⟩

theorem timestamp_reformatting_witness :
    (UserDetail.mk Json.null Json.null Json.null Json.null Json.null Json.null
      Json.null Json.null (Json.num 0) (Json.num 0) (Json.num 0) (Json.num 0)
      (Json.str "25/01/2011 18:44:36") Json.null Json.null Json.null).created_at =
      Json.str (format_timestamp (PyDateTime.mk 2011 1 25 18 44 36)) :=
  timestamp_reformatting.2.1 [("created_at", Json.str "2011-01-25T18:44:36Z")]
    "2011-01-25T18:44:36Z" (PyDateTime.mk 2011 1 25 18 44 36)
    (UserDetail.mk Json.null Json.null Json.null Json.null Json.null Json.null
      Json.null Json.null (Json.num 0) (Json.num 0) (Json.num 0) (Json.num 0)
      (Json.str "25/01/2011 18:44:36") Json.null Json.null Json.null)
    rfl rfl rfl

theorem append_ne_append (p₁ p₂ s₁ s₂ : String) (k : Nat) (h₁ : k ≤ p₁.data.length)
    (h₂ : k ≤ p₂.data.length) (hne : p₁.data.take k ≠ p₂.data.take k) :
    p₁ ++ s₁ ≠ p₂ ++ s₂ := by
  intro heq
  apply hne
  have hd : p₁.data ++ s₁.data = p₂.data ++ s₂.data := by
    have h := congrArg String.data heq
    simpa using h
  calc p₁.data.take k = (p₁.data ++ s₁.data).take k :=
        (List.take_append_of_le_length h₁).symm
    _ = (p₂.data ++ s₂.data).take k := by rw [hd]
    _ = p₂.data.take k := List.take_append_of_le_length h₂

theorem append_ne_const (p c s : String) (k : Nat) (h₁ : k ≤ p.data.length)
    (hne : p.data.take k ≠ c.data.take k) : p ++ s ≠ c := by
  intro heq
  apply hne
  have hd : p.data ++ s.data = c.data := by
    have h := congrArg String.data heq
    simpa using h
  calc p.data.take k = (p.data ++ s.data).take k :=
        (List.take_append_of_le_length h₁).symm
    _ = c.data.take k := by rw [hd]

/-- Claim C2 counterexample: the claim says every non-2xx status yields
an error, but `raise_for_status` raises only for statuses in
[400, 600); a 304 response (non-2xx) is returned as a payload with no
error. -/
theorem non2xx_not_always_error :
    make_request (HttpOutcome.response 304 (Json.obj [])) "/users" =
      Except.ok (Json.obj []) ∧
    ¬(200 ≤ 304 ∧ 304 < 300) :=
  ⟨rfl, by decide⟩

/-- Claim C2 (amended): the request layer classifies failures into one
generic `ValueError` kind distinguished by message: 404 yields a
message containing the endpoint; 403 yields the rate-limit message
advising a credential; 401 yields the invalid-credential message; any
other status in [400, 600) yields a message containing the numeric
status code; a transport failure yields a message distinct from every
HTTP-status message; on every such failure no payload is returned.
(Statuses outside 2xx but also outside [400, 600), e.g. 304, are not
raised by `raise_for_status` and the body is returned.)  The 403 and
404 classifications are also shown at operation level, for any search
query and any username. -/
theorem make_request_classification :
    (∀ body e, make_request (HttpOutcome.response 404 body) e =
      Except.error (PyErr.valueError ("Recurso não encontrado: " ++ e))) ∧
    (∀ body e, make_request (HttpOutcome.response 403 body) e =
      Except.error (PyErr.valueError "Rate limit excedido. Use um token de autenticação.")) ∧
    (∀ body e, make_request (HttpOutcome.response 401 body) e =
      Except.error (PyErr.valueError "Token de autenticação inválido")) ∧
    (∀ st body e, 400 ≤ st → st < 600 → st ≠ 404 → st ≠ 403 → st ≠ 401 →
      make_request (HttpOutcome.response st body) e =
        Except.error (PyErr.valueError
          ("Erro HTTP " ++ (Nat.repr st ++ (": " ++ raise_detail st e))))) ∧
    (∀ m e, make_request (HttpOutcome.transportFailure m) e =
      Except.error (PyErr.valueError ("Erro na requisição: " ++ m))) ∧
    (∀ m e st,
      ("Erro na requisição: " ++ m) ≠ ("Recurso não encontrado: " ++ e) ∧
      ("Erro na requisição: " ++ m) ≠ "Rate limit excedido. Use um token de autenticação." ∧
      ("Erro na requisição: " ++ m) ≠ "Token de autenticação inválido" ∧
      ("Erro na requisição: " ++ m) ≠
        ("Erro HTTP " ++ (Nat.repr st ++ (": " ++ raise_detail st e)))) ∧
    (∀ up q sort order pp body, sort ∈ valid_user_sorts →
      up { endpoint := "/search/users", params := search_params q sort order pp } =
        HttpOutcome.response 403 body →
      (search_users up q sort order pp).1 =
        Except.error (PyErr.valueError "Rate limit excedido. Use um token de autenticação.")) ∧
    (∀ up username body,
      up { endpoint := "/users/" ++ username, params := [] } =
        HttpOutcome.response 404 body →
      (get_user_details up username).1 =
        Except.error (PyErr.valueError ("Recurso não encontrado: " ++ ("/users/" ++ username)))) := by
  refine ⟨fun body e => rfl, fun body e => rfl, fun body e => rfl,
    fun st body e h1 h2 h404 h403 h401 => ?_,
    fun m e => rfl,
    fun m e st => ⟨append_ne_append _ _ _ _ 1 (by decide) (by decide) (by decide),
      append_ne_const _ _ _ 1 (by decide) (by decide),
      append_ne_const _ _ _ 1 (by decide) (by decide),
      append_ne_append _ _ _ _ 7 (by decide) (by decide) (by decide)⟩,
    fun up q sort order pp body hs hup => ?_,
    fun up username body hup => ?_⟩
  · simp only [make_request]
    rw [if_pos ⟨h1, h2⟩, if_neg h404, if_neg h403, if_neg h401]
  · unfold search_users
    rw [if_pos hs]
    simp only [hup]
    rfl
  · unfold get_user_details
    simp only [hup]
    rfl

theorem make_request_classification_witness :
    make_request (HttpOutcome.response 500 Json.null) "/users" =
      Except.error (PyErr.valueError
        ("Erro HTTP " ++ (Nat.repr 500 ++ (": " ++ raise_detail 500 "/users")))) ∧
    (search_users (fun _ => HttpOutcome.response 403 Json.null)
        "location:brazil" "followers" "desc" 5).1 =
      Except.error (PyErr.valueError "Rate limit excedido. Use um token de autenticação.") :=
  ⟨make_request_classification.2.2.2.1 500 Json.null "/users"
      (by decide) (by decide) (by decide) (by decide) (by decide),
   make_request_classification.2.2.2.2.2.2.1
      (fun _ => HttpOutcome.response 403 Json.null) "location:brazil" "followers" "desc" 5
      Json.null (by decide) rfl⟩

/-- Claim C6: on a successful (200) search response whose body is a
JSON object, both search operations return `total_count` from the
payload (defaulting to 0 when absent), `incomplete_results` from the
payload (defaulting to false when absent), and the payload's `items`
sequence mapped element-wise through the corresponding shaping function
in upstream order; a missing `items` field is treated as the empty
sequence. -/
theorem search_result_extraction (up : Upstream) (q order : String) (pp : Int)
    (sort : String) (payload : Obj) :
    (sort ∈ valid_user_sorts →
      up { endpoint := "/search/users", params := search_params q sort order pp } =
        HttpOutcome.response 200 (Json.obj payload) →
      ((∀ objs : List Obj,
          lookupField payload "items" = some (Json.arr (objs.map Json.obj)) →
          (search_users up q sort order pp).1 = Except.ok (SearchUsersResult.mk
            ((lookupField payload "total_count").getD (Json.num 0))
            ((lookupField payload "incomplete_results").getD (Json.bool false))
            (objs.map treat_user_record))) ∧
       (lookupField payload "items" = none →
          (search_users up q sort order pp).1 = Except.ok (SearchUsersResult.mk
            ((lookupField payload "total_count").getD (Json.num 0))
            ((lookupField payload "incomplete_results").getD (Json.bool false))
            [])))) ∧
    (sort ∈ valid_repo_sorts →
      up { endpoint := "/search/repositories", params := search_params q sort order pp } =
        HttpOutcome.response 200 (Json.obj payload) →
      ((∀ (objs : List Obj) (shaped : List RepoSummary),
          lookupField payload "items" = some (Json.arr (objs.map Json.obj)) →
          objs.mapM treat_repo_record = Except.ok shaped →
          (search_repositories up q sort order pp).1 = Except.ok (SearchReposResult.mk
            ((lookupField payload "total_count").getD (Json.num 0))
            ((lookupField payload "incomplete_results").getD (Json.bool false))
            shaped)) ∧
       (lookupField payload "items" = none →
          (search_repositories up q sort order pp).1 = Except.ok (SearchReposResult.mk
            ((lookupField payload "total_count").getD (Json.num 0))
            ((lookupField payload "incomplete_results").getD (Json.bool false))
            [])))) := by
  constructor
  · intro hs hup
    have step : (search_users up q sort order pp).1 =
        (treat_users_data (objGet payload "items" (Json.arr []))) >>= (fun users =>
          Except.ok (SearchUsersResult.mk (objGet payload "total_count" (Json.num 0))
            (objGet payload "incomplete_results" (Json.bool false)) users)) := by
      unfold search_users
      rw [if_pos hs]
      simp only [hup]
      rfl
    constructor
    · intro objs hit
      have hv : objGet payload "items" (Json.arr []) = Json.arr (objs.map Json.obj) := by
        rw [objGet, hit]
        rfl
      have htr : treat_users_data (Json.arr (objs.map Json.obj)) =
          Except.ok (objs.map treat_user_record) := by
        simpa [treat_users_data] using treat_user_list_map objs
      rw [step, hv, htr]
      rfl
    · intro hit
      have hv : objGet payload "items" (Json.arr []) = Json.arr [] := by
        rw [objGet, hit]
        rfl
      rw [step, hv]
      rfl
  · intro hs hup
    have step : (search_repositories up q sort order pp).1 =
        (treat_repositories_data (objGet payload "items" (Json.arr []))) >>= (fun repos =>
          Except.ok (SearchReposResult.mk (objGet payload "total_count" (Json.num 0))
            (objGet payload "incomplete_results" (Json.bool false)) repos)) := by
      unfold search_repositories
      rw [if_pos hs]
      simp only [hup]
      rfl
    constructor
    · intro objs shaped hit hm
      have hv : objGet payload "items" (Json.arr []) = Json.arr (objs.map Json.obj) := by
        rw [objGet, hit]
        rfl
      have htr : treat_repositories_data (Json.arr (objs.map Json.obj)) =
          Except.ok shaped := by
        have := treat_repo_list_eq_mapM objs
        simpa [treat_repositories_data, this] using hm
      rw [step, hv, htr]
      rfl
    · intro hit
      have hv : objGet payload "items" (Json.arr []) = Json.arr [] := by
        rw [objGet, hit]
        rfl
      rw [step, hv]
      rfl

/-- Five raw user records, as in the specification scenario. -/
def demo_items : List Obj :=
  [[("login", Json.str "u1")], [("login", Json.str "u2")], [("login", Json.str "u3")],
   [("login", Json.str "u4")], [("login", Json.str "u5")]]

/-- A mock search payload with total_count 120, incomplete_results
false and five items. -/
def demo_payload : Obj :=
  [("total_count", Json.num 120), ("incomplete_results", Json.bool false),
   ("items", Json.arr (demo_items.map Json.obj))]

theorem search_result_extraction_witness :
    (search_users (fun _ => HttpOutcome.response 200 (Json.obj demo_payload))
        "location:brazil" "followers" "desc" 5).1 =
      Except.ok (SearchUsersResult.mk
        ((lookupField demo_payload "total_count").getD (Json.num 0))
        ((lookupField demo_payload "incomplete_results").getD (Json.bool false))
        (demo_items.map treat_user_record)) ∧
    (lookupField demo_payload "total_count").getD (Json.num 0) = Json.num 120 ∧
    (lookupField demo_payload "incomplete_results").getD (Json.bool false) = Json.bool false ∧
    (demo_items.map treat_user_record).length = 5 :=
  ⟨((search_result_extraction (fun _ => HttpOutcome.response 200 (Json.obj demo_payload))
      "location:brazil" "desc" 5 "followers" demo_payload).1 (by decide) rfl).1
      demo_items rfl,
   rfl, rfl, rfl⟩
